import Mathlib

/-!
Verification of the Penman-Planner backend (`backend/server.py`).

The numeric model of the code is embedded over the real numbers: Python
floats become `ℝ`, `math.exp` becomes `Real.exp`, and Python's
`round(x, k)` becomes rounding to the nearest multiple of `10⁻ᵏ`
(the claims under verification never land on a tie, so the half-even
versus half-up distinction is immaterial).  The document store is
modelled as a list of records in insertion order.
-/

namespace PenmanPlanner

/-- Model of Python `round(x, 3)`: nearest multiple of 1/1000. -/
noncomputable def round3 (x : ℝ) : ℝ := (round (x * 1000) : ℤ) / 1000

/-- Model of Python `round(x, 2)`: nearest multiple of 1/100. -/
noncomputable def round2 (x : ℝ) : ℝ := (round (x * 100) : ℤ) / 100

/-- The `components` dict built by `calculate_penman_evaporation`
(`server.py` lines 97-106).  The key set is fixed, so the dict is
embedded as a structure with exactly its 8 fields. -/
structure PenmanComponents where
  radiation_component : ℝ
  aerodynamic_component : ℝ
  saturation_vapor_pressure : ℝ
  actual_vapor_pressure : ℝ
  vapor_pressure_deficit : ℝ
  slope_vapor_pressure : ℝ
  wind_function : ℝ
  net_radiation_equivalent : ℝ

/-- Embedding of `calculate_penman_evaporation` (`server.py` lines 64-108).
Returns `(max 0 evaporation, components)`; rounding is applied only when
building the components dict, exactly as in the source. -/
noncomputable def calculate_penman_evaporation
    (temperature humidity wind_speed solar_radiation : ℝ) :
    ℝ × PenmanComponents :=
  let psychrometric_constant : ℝ := 0.665
  let es := 0.6108 * Real.exp ((17.27 * temperature) / (temperature + 237.3))
  let ea := es * (humidity / 100.0)
  let delta := (4098 * es) / ((temperature + 237.3) ^ 2)
  let rn := solar_radiation / 2.45
  let wind_function := 2.6 * (1 + 0.54 * wind_speed)
  let radiation_component := (delta / (delta + psychrometric_constant)) * rn
  let aerodynamic_component :=
    (psychrometric_constant / (delta + psychrometric_constant)) * wind_function * (es - ea)
  let evaporation := radiation_component + aerodynamic_component
  (max 0 evaporation,
    { radiation_component := round3 radiation_component
      aerodynamic_component := round3 aerodynamic_component
      saturation_vapor_pressure := round3 es
      actual_vapor_pressure := round3 ea
      vapor_pressure_deficit := round3 (es - ea)
      slope_vapor_pressure := round3 delta
      wind_function := round3 wind_function
      net_radiation_equivalent := round3 rn })

open Classical in
/-- `calculate_penman_evaporation` with every division guarded: the
result is `none` exactly when some denominator appearing in the source
(lines 74, 77, 80, 84, 91-92) is zero.  Python raises `ZeroDivisionError`
on float division by zero, so `none` models the unguarded failure. -/
noncomputable def calculate_penman_evaporation_checked
    (temperature humidity wind_speed solar_radiation : ℝ) :
    Option (ℝ × PenmanComponents) :=
  if temperature + 237.3 = 0 then none
  else if (100.0 : ℝ) = 0 then none
  else if (temperature + 237.3) ^ 2 = 0 then none
  else if (2.45 : ℝ) = 0 then none
  else
    let es := 0.6108 * Real.exp ((17.27 * temperature) / (temperature + 237.3))
    let delta := (4098 * es) / ((temperature + 237.3) ^ 2)
    if delta + 0.665 = 0 then none
    else some (calculate_penman_evaporation temperature humidity wind_speed solar_radiation)

/-- The (unrounded) slope `delta` is strictly positive whenever
`temperature + 237.3 ≠ 0`. -/
lemma delta_pos {T : ℝ} (hT : T + 237.3 ≠ 0) :
    0 < (4098 * (0.6108 * Real.exp ((17.27 * T) / (T + 237.3)))) / ((T + 237.3) ^ 2) := by
  have hexp : 0 < Real.exp ((17.27 * T) / (T + 237.3)) := Real.exp_pos _
  have hsq : 0 < (T + 237.3) ^ 2 := by positivity
  positivity

/-- C1: `calculate_penman_evaporation` computes exactly the formulas of
the spec — `es = 0.6108·exp(17.27·T/(T+237.3))`, `ea = es·h/100`,
`delta = 4098·es/(T+237.3)²`, `rn = s/2.45`, `f(u) = 2.6·(1+0.54·w)`,
psychrometric constant `0.665`, the two components, and returns
`max 0 (radiation + aerodynamic)` together with the 8 intermediate
quantities, each rounded to 3 decimals, rounding applied only at the
output boundary. -/
theorem penman_matches_spec
    (T h w s : ℝ) (hT : T + 237.3 ≠ 0) :
    (calculate_penman_evaporation T h w s).1 =
        max 0 ((4098 * (0.6108 * Real.exp (17.27 * T / (T + 237.3))) / (T + 237.3) ^ 2) /
            ((4098 * (0.6108 * Real.exp (17.27 * T / (T + 237.3))) / (T + 237.3) ^ 2) + 0.665) *
            (s / 2.45) +
          0.665 /
            ((4098 * (0.6108 * Real.exp (17.27 * T / (T + 237.3))) / (T + 237.3) ^ 2) + 0.665) *
            (2.6 * (1 + 0.54 * w)) *
            (0.6108 * Real.exp (17.27 * T / (T + 237.3)) -
              0.6108 * Real.exp (17.27 * T / (T + 237.3)) * h / 100)) ∧
      (calculate_penman_evaporation T h w s).2 =
        { radiation_component :=
            round3 ((4098 * (0.6108 * Real.exp (17.27 * T / (T + 237.3))) / (T + 237.3) ^ 2) /
              ((4098 * (0.6108 * Real.exp (17.27 * T / (T + 237.3))) / (T + 237.3) ^ 2) + 0.665) *
              (s / 2.45))
          aerodynamic_component :=
            round3 (0.665 /
              ((4098 * (0.6108 * Real.exp (17.27 * T / (T + 237.3))) / (T + 237.3) ^ 2) + 0.665) *
              (2.6 * (1 + 0.54 * w)) *
              (0.6108 * Real.exp (17.27 * T / (T + 237.3)) -
                0.6108 * Real.exp (17.27 * T / (T + 237.3)) * h / 100))
          saturation_vapor_pressure := round3 (0.6108 * Real.exp (17.27 * T / (T + 237.3)))
          actual_vapor_pressure := round3 (0.6108 * Real.exp (17.27 * T / (T + 237.3)) * h / 100)
          vapor_pressure_deficit :=
            round3 (0.6108 * Real.exp (17.27 * T / (T + 237.3)) -
              0.6108 * Real.exp (17.27 * T / (T + 237.3)) * h / 100)
          slope_vapor_pressure :=
            round3 (4098 * (0.6108 * Real.exp (17.27 * T / (T + 237.3))) / (T + 237.3) ^ 2)
          wind_function := round3 (2.6 * (1 + 0.54 * w))
          net_radiation_equivalent := round3 (s / 2.45) } := by
  constructor
  · simp only [calculate_penman_evaporation]
    ring_nf
  · simp only [calculate_penman_evaporation]
    congr 1 <;> ring_nf

/-- Witness for `penman_matches_spec` at T = 25, h = 60, w = 2, s = 20. -/
theorem penman_matches_spec_witness :
    (25 : ℝ) + 237.3 ≠ 0 ∧
      ((calculate_penman_evaporation 25 60 2 20).2.wind_function =
        round3 (2.6 * (1 + 0.54 * 2))) := by
  have h : (25 : ℝ) + 237.3 ≠ 0 := by norm_num
  exact ⟨h, ((penman_matches_spec 25 60 2 20 h).2 ▸ rfl)⟩

/-- One entry of the `seasonal_analysis` dict (`server.py` lines 131-135). -/
structure SeasonRecord where
  daily_evaporation_loss : ℝ
  seasonal_total_loss : ℝ
  percentage_factor : ℝ

/-- The `seasonal_analysis` dict: its key set is the four fixed seasons
(`server.py` lines 121-126). -/
structure SeasonalAnalysis where
  spring : SeasonRecord
  summer : SeasonRecord
  autumn : SeasonRecord
  winter : SeasonRecord

/-- The `water_balance` dict (`server.py` lines 144-149). -/
structure WaterBalance where
  annual_evaporation_loss : ℝ
  recommended_buffer : ℝ
  total_recommended_capacity : ℝ
  surface_area_assumed : ℝ

/-- One static irrigation-recommendation record (`server.py` lines 152-171). -/
structure IrrigationRecommendation where
  period : String
  irrigation_frequency : String
  water_requirement : String
  evaporation_consideration : String

/-- The fixed list of irrigation recommendations (`server.py` lines
152-171); constant data, independent of any computed value. -/
def irrigation_recommendations : List IrrigationRecommendation :=
  [{ period := "Summer (Mar-Jun)"
     irrigation_frequency := "Every 3-4 days"
     water_requirement := "High"
     evaporation_consideration := "High evaporation losses — increase irrigation by 30%" },
   { period := "Rainy (Jul-Oct)"
     irrigation_frequency := "Every 10-15 days"
     water_requirement := "Low"
     evaporation_consideration := "Rainfall compensates — minimal irrigation required" },
   { period := "Winter (Nov-Feb)"
     irrigation_frequency := "Every 7-10 days"
     water_requirement := "Medium"
     evaporation_consideration := "Low evaporation — moderate irrigation needed" }]

/-- The dict returned by `calculate_storage_planning` (`server.py`
lines 173-178). -/
structure StoragePlan where
  reservoir_capacity_needed : ℝ
  seasonal_analysis : SeasonalAnalysis
  irrigation_recs : List IrrigationRecommendation
  water_balance : WaterBalance

/-- The per-season record built on `server.py` lines 130-135. -/
noncomputable def seasonRecord (daily_loss factor : ℝ) : SeasonRecord :=
  { daily_evaporation_loss := round2 (daily_loss * factor)
    seasonal_total_loss := round2 (daily_loss * factor * 90)
    percentage_factor := factor }

/-- Embedding of `calculate_storage_planning` (`server.py` lines
111-178).  The source takes an `EvaporationResult` and reads only its
`evaporation_rate` (line 115); here the rate is the argument. -/
noncomputable def calculate_storage_planning
    (evaporation_rate : ℝ) (reservoir_surface_area : ℝ) : StoragePlan :=
  let daily_loss := (evaporation_rate / 1000) * reservoir_surface_area
  let seasonal_analysis : SeasonalAnalysis :=
    { spring := seasonRecord daily_loss 0.8
      summer := seasonRecord daily_loss 1.3
      autumn := seasonRecord daily_loss 0.7
      winter := seasonRecord daily_loss 0.4 }
  let annual_loss :=
    seasonal_analysis.spring.seasonal_total_loss +
      seasonal_analysis.summer.seasonal_total_loss +
      seasonal_analysis.autumn.seasonal_total_loss +
      seasonal_analysis.winter.seasonal_total_loss
  let recommended_capacity := annual_loss * 1.5
  { reservoir_capacity_needed := round2 recommended_capacity
    seasonal_analysis := seasonal_analysis
    irrigation_recs := irrigation_recommendations
    water_balance :=
      { annual_evaporation_loss := round2 annual_loss
        recommended_buffer := round2 (annual_loss * 0.5)
        total_recommended_capacity := round2 recommended_capacity
        surface_area_assumed := reservoir_surface_area } }

/-- `round2` is the identity on integer multiples of 1/100. -/
lemma round2_int_div (n : ℤ) : round2 ((n : ℝ) / 100) = (n : ℝ) / 100 := by
  rw [round2, div_mul_cancel₀ _ (by norm_num : (100 : ℝ) ≠ 0), round_intCast]

/-- `round2` is the identity on sums of `round2`-values. -/
lemma round2_sum_round2 (a b c d : ℝ) :
    round2 (round2 a + round2 b + round2 c + round2 d) =
      round2 a + round2 b + round2 c + round2 d := by
  have h : round2 a + round2 b + round2 c + round2 d =
      ((round (a * 100) + round (b * 100) + round (c * 100) + round (d * 100) : ℤ) : ℝ) / 100 := by
    simp only [round2]
    push_cast
    ring
  rw [h, round2_int_div]

/-- `round2` moves a value by at most 1/200. -/
lemma abs_round2_sub_le (x : ℝ) : |round2 x - x| ≤ 1 / 200 := by
  have h := abs_sub_round (x * 100)
  rw [round2]
  have : (round (x * 100) : ℝ) / 100 - x = ((round (x * 100) : ℝ) - x * 100) / 100 := by ring
  rw [this, abs_div, abs_of_pos (by norm_num : (0:ℝ) < 100), abs_sub_comm]
  linarith

/-- C2: for every rate `r` and area `A`, the storage plan has
`daily_loss = (r/1000)·A`; each season records `round2(daily·factor)`,
`round2(daily·factor·90)` and its factor verbatim (spring 0.8, summer
1.3, autumn 0.7, winter 0.4); the reported annual loss equals the sum of
the four seasonal totals; both capacity fields equal `1.5 · annual_loss`
within rounding tolerance; the buffer is `round2(annual_loss · 0.5)`;
and the surface area is recorded verbatim. -/
theorem storage_planning_matches_spec (r A : ℝ) :
    (calculate_storage_planning r A).seasonal_analysis.spring =
        { daily_evaporation_loss := round2 (r / 1000 * A * 0.8)
          seasonal_total_loss := round2 (r / 1000 * A * 0.8 * 90)
          percentage_factor := 0.8 } ∧
      (calculate_storage_planning r A).seasonal_analysis.summer =
        { daily_evaporation_loss := round2 (r / 1000 * A * 1.3)
          seasonal_total_loss := round2 (r / 1000 * A * 1.3 * 90)
          percentage_factor := 1.3 } ∧
      (calculate_storage_planning r A).seasonal_analysis.autumn =
        { daily_evaporation_loss := round2 (r / 1000 * A * 0.7)
          seasonal_total_loss := round2 (r / 1000 * A * 0.7 * 90)
          percentage_factor := 0.7 } ∧
      (calculate_storage_planning r A).seasonal_analysis.winter =
        { daily_evaporation_loss := round2 (r / 1000 * A * 0.4)
          seasonal_total_loss := round2 (r / 1000 * A * 0.4 * 90)
          percentage_factor := 0.4 } ∧
      (calculate_storage_planning r A).water_balance.annual_evaporation_loss =
        (calculate_storage_planning r A).seasonal_analysis.spring.seasonal_total_loss +
          (calculate_storage_planning r A).seasonal_analysis.summer.seasonal_total_loss +
          (calculate_storage_planning r A).seasonal_analysis.autumn.seasonal_total_loss +
          (calculate_storage_planning r A).seasonal_analysis.winter.seasonal_total_loss ∧
      |(calculate_storage_planning r A).reservoir_capacity_needed -
          1.5 * (calculate_storage_planning r A).water_balance.annual_evaporation_loss| ≤
        1 / 200 ∧
      |(calculate_storage_planning r A).water_balance.total_recommended_capacity -
          1.5 * (calculate_storage_planning r A).water_balance.annual_evaporation_loss| ≤
        1 / 200 ∧
      (calculate_storage_planning r A).water_balance.recommended_buffer =
        round2 ((calculate_storage_planning r A).water_balance.annual_evaporation_loss * 0.5) ∧
      (calculate_storage_planning r A).water_balance.surface_area_assumed = A := by
  have hS := round2_sum_round2 (r / 1000 * A * 0.8 * 90) (r / 1000 * A * 1.3 * 90)
      (r / 1000 * A * 0.7 * 90) (r / 1000 * A * 0.4 * 90)
  refine ⟨rfl, rfl, rfl, rfl, ?_, ?_, ?_, ?_, rfl⟩
  · simpa only [calculate_storage_planning, seasonRecord] using hS
  · simp only [calculate_storage_planning, seasonRecord]
    rw [hS, mul_comm (1.5 : ℝ)]
    exact abs_round2_sub_le _
  · simp only [calculate_storage_planning, seasonRecord]
    rw [hS, mul_comm (1.5 : ℝ)]
    exact abs_round2_sub_le _
  · simp only [calculate_storage_planning, seasonRecord]
    rw [hS]

/-- C10: the annual loss is computed from the already-rounded seasonal
totals `S = Σ round2(daily·factor·90)`: the reported annual loss is
`round2 S`, both capacity fields are `round2(1.5·S)`, and the buffer is
`round2(0.5·S)`. -/
theorem annual_loss_from_rounded_totals (r A : ℝ) :
    (calculate_storage_planning r A).water_balance.annual_evaporation_loss =
        round2 (round2 (r / 1000 * A * 0.8 * 90) + round2 (r / 1000 * A * 1.3 * 90) +
          round2 (r / 1000 * A * 0.7 * 90) + round2 (r / 1000 * A * 0.4 * 90)) ∧
      (calculate_storage_planning r A).water_balance.total_recommended_capacity =
        round2 (1.5 * (round2 (r / 1000 * A * 0.8 * 90) + round2 (r / 1000 * A * 1.3 * 90) +
          round2 (r / 1000 * A * 0.7 * 90) + round2 (r / 1000 * A * 0.4 * 90))) ∧
      (calculate_storage_planning r A).reservoir_capacity_needed =
        round2 (1.5 * (round2 (r / 1000 * A * 0.8 * 90) + round2 (r / 1000 * A * 1.3 * 90) +
          round2 (r / 1000 * A * 0.7 * 90) + round2 (r / 1000 * A * 0.4 * 90))) ∧
      (calculate_storage_planning r A).water_balance.recommended_buffer =
        round2 (0.5 * (round2 (r / 1000 * A * 0.8 * 90) + round2 (r / 1000 * A * 1.3 * 90) +
          round2 (r / 1000 * A * 0.7 * 90) + round2 (r / 1000 * A * 0.4 * 90))) := by
  refine ⟨rfl, ?_, ?_, ?_⟩ <;>
    · simp only [calculate_storage_planning, seasonRecord, round2]
      congr 2
      ring

/-- Model of the `StoragePlanningResult` computed by the
`/calculate-storage-planning` endpoint (`server.py` lines 209-244):
the plan fields together with the embedded evaporation data. -/
structure StoragePlanningResultModel where
  reservoir_capacity_needed : ℝ
  seasonal_analysis : SeasonalAnalysis
  irrigation_recs : List IrrigationRecommendation
  water_balance : WaterBalance
  evaporation_rate : ℝ
  penman_components : PenmanComponents
  weather : ℝ × ℝ × ℝ × ℝ

/-- Embedding of `calculate_storage_planning_endpoint` (`server.py`
lines 209-244): `surface_area` is an optional parameter defaulting to
1000; the evaporation rate is rounded to 3 decimals before planning
(line 222). -/
noncomputable def calculate_storage_planning_endpoint
    (temperature humidity wind_speed solar_radiation : ℝ) (surface_area : Option ℝ) :
    StoragePlanningResultModel :=
  let pe := calculate_penman_evaporation temperature humidity wind_speed solar_radiation
  let rate := round3 pe.1
  let plan := calculate_storage_planning rate (surface_area.getD 1000)
  { reservoir_capacity_needed := plan.reservoir_capacity_needed
    seasonal_analysis := plan.seasonal_analysis
    irrigation_recs := plan.irrigation_recs
    water_balance := plan.water_balance
    evaporation_rate := rate
    penman_components := pe.2
    weather := (temperature, humidity, wind_speed, solar_radiation) }

/-- C8: calling the storage-planning endpoint with `surface_area`
omitted produces exactly the same result as calling it with
`surface_area = 1000`: every computed field of the two plans is equal. -/
theorem surface_area_default_eq_explicit (T h w s : ℝ) :
    calculate_storage_planning_endpoint T h w s none =
      calculate_storage_planning_endpoint T h w s (some 1000) := rfl

/-- The saturation vapor pressure `es` of `server.py` line 74, as a
named subterm. -/
noncomputable def penman_es (T : ℝ) : ℝ :=
  0.6108 * Real.exp ((17.27 * T) / (T + 237.3))

/-- The slope `delta` of `server.py` line 80, as a named subterm. -/
noncomputable def penman_delta (T : ℝ) : ℝ :=
  (4098 * penman_es T) / ((T + 237.3) ^ 2)

/-- The `radiation_component` of `server.py` line 91, as a named subterm. -/
noncomputable def penman_radiation (T s : ℝ) : ℝ :=
  (penman_delta T / (penman_delta T + 0.665)) * (s / 2.45)

/-- The `aerodynamic_component` of `server.py` line 92, as a named subterm. -/
noncomputable def penman_aerodynamic (T h w : ℝ) : ℝ :=
  (0.665 / (penman_delta T + 0.665)) * (2.6 * (1 + 0.54 * w)) *
    (penman_es T - penman_es T * (h / 100.0))

/-- The raw (unclamped) sum of `server.py` line 94, as a named subterm. -/
noncomputable def penman_raw (T h w s : ℝ) : ℝ :=
  penman_radiation T s + penman_aerodynamic T h w

/-- The returned rate is the raw sum clamped at 0 (definitional). -/
lemma penman_fst_eq_max (T h w s : ℝ) :
    (calculate_penman_evaporation T h w s).1 = max 0 (penman_raw T h w s) := rfl

/-- `penman_delta` is positive away from the degenerate temperature. -/
lemma penman_delta_pos {T : ℝ} (hT : T + 237.3 ≠ 0) : 0 < penman_delta T := by
  rw [penman_delta, penman_es]
  exact delta_pos hT

/-- The radiation component is nonnegative when solar radiation is. -/
lemma penman_radiation_nonneg {T s : ℝ} (hT : T + 237.3 ≠ 0) (hs : 0 ≤ s) :
    0 ≤ penman_radiation T s := by
  have hd := penman_delta_pos hT
  rw [penman_radiation]
  have h1 : 0 < penman_delta T / (penman_delta T + 0.665) := by positivity
  have h2 : 0 ≤ s / 2.45 := by positivity
  positivity

/-- The aerodynamic component is nonnegative when `h ≤ 100` and `0 ≤ w`. -/
lemma penman_aerodynamic_nonneg {T h w : ℝ} (hT : T + 237.3 ≠ 0)
    (hh : h ≤ 100) (hw : 0 ≤ w) : 0 ≤ penman_aerodynamic T h w := by
  have hd := penman_delta_pos hT
  have he : 0 < penman_es T := by rw [penman_es]; positivity
  rw [penman_aerodynamic]
  have h1 : 0 < 0.665 / (penman_delta T + 0.665) := by positivity
  have h2 : 0 ≤ 2.6 * (1 + 0.54 * w) := by nlinarith
  have h3 : 0 ≤ penman_es T - penman_es T * (h / 100.0) := by nlinarith
  exact mul_nonneg (mul_nonneg h1.le h2) h3

/-- C9 (amended): within the documented ranges `h ≤ 100`, `0 ≤ s`,
`0 ≤ w` (and `T ≠ -237.3`) both components are nonnegative and the
`max(0, ·)` clamp is the identity; a negative raw total can only arise
when humidity exceeds 100, solar radiation is negative, or wind speed is
negative. -/
theorem components_nonneg_in_range (T h w s : ℝ) (hT : T + 237.3 ≠ 0) :
    (0 ≤ h → h ≤ 100 → 0 ≤ s → 0 ≤ w →
      0 ≤ penman_radiation T s ∧ 0 ≤ penman_aerodynamic T h w ∧
        (calculate_penman_evaporation T h w s).1 = penman_raw T h w s) ∧
      (penman_raw T h w s < 0 → 100 < h ∨ s < 0 ∨ w < 0) := by
  constructor
  · intro _ hh hs hw
    have h1 := penman_radiation_nonneg hT hs
    have h2 := penman_aerodynamic_nonneg hT hh hw
    refine ⟨h1, h2, ?_⟩
    rw [penman_fst_eq_max]
    exact max_eq_right (by rw [penman_raw]; linarith)
  · intro hneg
    by_contra hcon
    push_neg at hcon
    obtain ⟨hh, hs, hw⟩ := hcon
    have h1 := penman_radiation_nonneg hT hs
    have h2 := penman_aerodynamic_nonneg hT hh hw
    rw [penman_raw] at hneg
    linarith

/-- Witness for `components_nonneg_in_range` at T = 25, h = 60, w = 2,
s = 20. -/
theorem components_nonneg_in_range_witness :
    (25 : ℝ) + 237.3 ≠ 0 ∧
      (calculate_penman_evaporation 25 60 2 20).1 = penman_raw 25 60 2 20 :=
  ⟨by norm_num,
    (((components_nonneg_in_range 25 60 2 20 (by norm_num)).1 (by norm_num) (by norm_num)
      (by norm_num) (by norm_num)).2.2)⟩

/-- C9 counterexample: at T = 25, h = 50, w = -10, s = 0 the raw total is
negative although humidity does not exceed 100 and solar radiation is not
negative — a negative raw total does not require `h > 100` or `s < 0`. -/
theorem raw_negative_within_humidity_solar_range :
    penman_raw 25 50 (-10) 0 < 0 ∧ ¬((100 : ℝ) < 50 ∨ (0 : ℝ) < 0) := by
  constructor
  · have hT : (25 : ℝ) + 237.3 ≠ 0 := by norm_num
    have hd := penman_delta_pos hT
    have he : 0 < penman_es 25 := by rw [penman_es]; positivity
    rw [penman_raw, penman_radiation, penman_aerodynamic]
    have hrad : penman_delta 25 / (penman_delta 25 + 0.665) * ((0 : ℝ) / 2.45) = 0 := by
      norm_num
    rw [hrad]
    have h1 : 0 < 0.665 / (penman_delta 25 + 0.665) := by positivity
    have h2 : (2.6 : ℝ) * (1 + 0.54 * (-10)) < 0 := by norm_num
    have h3 : 0 < penman_es 25 - penman_es 25 * (50 / 100.0) := by nlinarith
    nlinarith [mul_pos h1 h3]
  · norm_num

/-- C3: the evaporation rate returned by the model is nonnegative, even
when the raw sum `radiation_component + aerodynamic_component` is
negative: the source returns `max(0, evaporation)`. -/
theorem evaporation_rate_nonneg
    (T h w s : ℝ) (hT : T + 237.3 ≠ 0) :
    0 ≤ (calculate_penman_evaporation T h w s).1 := by
  simp only [calculate_penman_evaporation]
  exact le_max_left 0 _

/-- Witness for `evaporation_rate_nonneg` at T = 25, h = 60, w = 2, s = 20. -/
theorem evaporation_rate_nonneg_witness :
    (25 : ℝ) + 237.3 ≠ 0 ∧ 0 ≤ (calculate_penman_evaporation 25 60 2 20).1 :=
  ⟨by norm_num, evaporation_rate_nonneg 25 60 2 20 (by norm_num)⟩

/-- C7: the checked evaluation succeeds exactly when `T ≠ -237.3`:
every denominator of the computation is nonzero for `T ≠ -237.3`, and at
`T = -237.3` a zero denominator arises (the case is not guarded, so the
computation fails there). -/
theorem penman_division_safety
    (T h w s : ℝ) :
    (calculate_penman_evaporation_checked T h w s).isSome ↔ T ≠ -237.3 := by
  constructor
  · intro hsome hT
    rw [calculate_penman_evaporation_checked] at hsome
    simp only [hT] at hsome
    norm_num at hsome
  · intro hT
    have h1 : T + 237.3 ≠ 0 := by
      intro h0
      exact hT (by linarith)
    have h2 : (T + 237.3) ^ 2 ≠ 0 := pow_ne_zero 2 h1
    have h3 : (4098 * (0.6108 * Real.exp ((17.27 * T) / (T + 237.3)))) / ((T + 237.3) ^ 2) +
        0.665 ≠ 0 := by
      have := delta_pos h1
      positivity
    rw [calculate_penman_evaporation_checked]
    simp only [h1, h2, h3, if_false, if_neg]
    norm_num

/-- `round3 x = y` whenever `x·1000 + 1/2` falls in `[n, n+1)` and
`y = n/1000`. -/
lemma round3_eq_of (x y : ℝ) (n : ℤ)
    (h1 : (n : ℝ) ≤ x * 1000 + 1 / 2) (h2 : x * 1000 + 1 / 2 < (n : ℝ) + 1)
    (hy : (n : ℝ) / 1000 = y) : round3 x = y := by
  rw [round3, round_eq, Int.floor_eq_iff.mpr ⟨h1, h2⟩, hy]

/-- Rational bounds on `exp(8635/5246)`, the exponential evaluated by the
model at T = 25, obtained from `exp 1` and an 8-term Taylor expansion of
`exp(3389/5246)`. -/
lemma exp_t25_bounds :
    (5.18627 : ℝ) ≤ Real.exp (8635 / 5246) ∧ Real.exp (8635 / 5246) ≤ 5.18628 := by
  have hx0 : |(3389 / 5246 : ℝ)| ≤ 1 := by
    rw [abs_of_nonneg (by norm_num)]
    norm_num
  have hb := @Real.exp_bound (3389 / 5246 : ℝ) hx0 8 (by norm_num)
  rw [abs_of_nonneg (by norm_num : (0 : ℝ) ≤ 3389 / 5246)] at hb
  simp only [Finset.sum_range_succ, Finset.sum_range_zero] at hb
  norm_num [Nat.factorial] at hb
  have hb' := abs_le.mp hb
  have hlo : (1.9079228 : ℝ) ≤ Real.exp (3389 / 5246) := by
    have h1 := hb'.1
    nlinarith [h1]
  have hhi : Real.exp (3389 / 5246) ≤ (1.9079246 : ℝ) := by
    have h2 := hb'.2
    nlinarith [h2]
  have hsplit : (8635 / 5246 : ℝ) = 1 + 3389 / 5246 := by norm_num
  rw [hsplit, Real.exp_add]
  constructor
  · have h := mul_le_mul (le_of_lt Real.exp_one_gt_d9) hlo (by norm_num)
      (Real.exp_pos 1).le
    nlinarith [h]
  · have h := mul_le_mul (le_of_lt Real.exp_one_lt_d9) hhi (Real.exp_pos _).le
      (by norm_num)
    nlinarith [h]

/-- C6 counterexample: at T = 25, h = 60, w = 2, s = 20 the recorded wind
function is `round3(2.6·(1+0.54·2)) = 5.408`, not ≈ 3.208 as the spec
scenario states. -/
theorem wind_function_at_scenario_ne_spec_value :
    (calculate_penman_evaporation 25 60 2 20).2.wind_function = 5.408 ∧
      (5.408 : ℝ) ≠ 3.208 := by
  constructor
  · show round3 (2.6 * (1 + 0.54 * 2)) = 5.408
    exact round3_eq_of _ _ 5408 (by norm_num) (by norm_num) (by norm_num)
  · norm_num

/-- C6 (amended): for T = 25 °C, humidity = 60 %, wind = 2 m/s,
solar = 20 MJ/m²/day the model records es ≈ 3.168 kPa, ea ≈ 1.901 kPa,
delta ≈ 0.189 kPa/°C, rn ≈ 8.163, wind function f(u) ≈ 5.408 (each the
3-decimal rounding), and returns an evaporation rate strictly greater
than 0. -/
theorem scenario_t25_h60_w2_s20 :
    (calculate_penman_evaporation 25 60 2 20).2.saturation_vapor_pressure = 3.168 ∧
      (calculate_penman_evaporation 25 60 2 20).2.actual_vapor_pressure = 1.901 ∧
      (calculate_penman_evaporation 25 60 2 20).2.slope_vapor_pressure = 0.189 ∧
      (calculate_penman_evaporation 25 60 2 20).2.net_radiation_equivalent = 8.163 ∧
      (calculate_penman_evaporation 25 60 2 20).2.wind_function = 5.408 ∧
      0 < (calculate_penman_evaporation 25 60 2 20).1 := by
  have harg : ((17.27 * 25 : ℝ)) / (25 + 237.3) = 8635 / 5246 := by norm_num
  have hE := exp_t25_bounds
  refine ⟨?_, ?_, ?_, ?_, ?_, ?_⟩
  · show round3 (0.6108 * Real.exp ((17.27 * 25) / (25 + 237.3))) = 3.168
    rw [harg]
    exact round3_eq_of _ _ 3168 (by nlinarith [hE.1]) (by nlinarith [hE.2]) (by norm_num)
  · show round3 (0.6108 * Real.exp ((17.27 * 25) / (25 + 237.3)) * (60 / 100.0)) = 1.901
    rw [harg]
    exact round3_eq_of _ _ 1901 (by nlinarith [hE.1]) (by nlinarith [hE.2]) (by norm_num)
  · show round3 ((4098 * (0.6108 * Real.exp ((17.27 * 25) / (25 + 237.3)))) /
      ((25 + 237.3) ^ 2)) = 0.189
    rw [harg]
    have hc : ((25 : ℝ) + 237.3) ^ 2 = 68801.29 := by norm_num
    rw [hc]
    exact round3_eq_of _ _ 189 (by push_cast; ring_nf; nlinarith [hE.1])
      (by push_cast; ring_nf; nlinarith [hE.2]) (by norm_num)
  · show round3 (20 / 2.45) = 8.163
    exact round3_eq_of _ _ 8163 (by norm_num) (by norm_num) (by norm_num)
  · show round3 (2.6 * (1 + 0.54 * 2)) = 5.408
    exact round3_eq_of _ _ 5408 (by norm_num) (by norm_num) (by norm_num)
  · rw [penman_fst_eq_max]
    have hT : (25 : ℝ) + 237.3 ≠ 0 := by norm_num
    have hd := penman_delta_pos hT
    have he : 0 < penman_es 25 := by rw [penman_es]; positivity
    have hraw : 0 < penman_raw 25 60 2 20 := by
      rw [penman_raw, penman_radiation, penman_aerodynamic]
      have h1 : 0 < penman_delta 25 / (penman_delta 25 + 0.665) * (20 / 2.45) := by
        positivity
      have h3 : 0 < penman_es 25 - penman_es 25 * (60 / 100.0) := by nlinarith
      have ha : 0 < 0.665 / (penman_delta 25 + 0.665) := by positivity
      have hbp : (0 : ℝ) < 2.6 * (1 + 0.54 * 2) := by norm_num
      exact add_pos h1 (mul_pos (mul_pos ha hbp) h3)
    exact lt_max_iff.mpr (Or.inr hraw)

/-- Modelled from the spec: a record in one of the document-store
collections, reduced to its payload and its (sortable) timestamp; the
store keeps records as a list in insertion order, and timestamps are
modelled as naturals (microseconds since the epoch). -/
structure StoredRecord (α : Type) where
  payload : α
  timestamp : ℕ

/-- `a` is at least as new as `b`. -/
def newerEq {α : Type} (a b : StoredRecord α) : Prop := b.timestamp ≤ a.timestamp

instance {α : Type} : DecidableRel (newerEq (α := α)) :=
  fun a b => Nat.decLe b.timestamp a.timestamp

instance {α : Type} : IsTotal (StoredRecord α) newerEq :=
  ⟨fun a b => (le_total b.timestamp a.timestamp).imp id id⟩

instance {α : Type} : IsTrans (StoredRecord α) newerEq :=
  ⟨fun _ _ _ hab hbc => le_trans hbc hab⟩

/-- Modelled from the spec: `find().sort("timestamp", -1).limit(50)` of
the two planning history endpoints (`server.py` lines 249 and 261) —
sort the collection newest-first by timestamp and keep at most 50. -/
def list_recent_50 {α : Type} (db : List (StoredRecord α)) : List (StoredRecord α) :=
  (List.insertionSort newerEq db).take 50

/-- Modelled from the spec: `find().to_list(1000)` of the status endpoint
(`server.py` line 283) — no sort is applied, at most 1000 records are
returned in store order. -/
def list_status_1000 {α : Type} (db : List (StoredRecord α)) : List (StoredRecord α) :=
  db.take 1000

/-- A concrete status collection: two records inserted oldest-first. -/
def statusDbExample : List (StoredRecord Unit) := [⟨(), 0⟩, ⟨(), 1⟩]

/-- A concrete evaporation collection holding 51 records. -/
def evapDbExample : List (StoredRecord Unit) :=
  (List.range 51).map fun i => ⟨(), i⟩

/-- C4 counterexample: the status-check listing does not sort: on a store
holding an older record before a newer one it returns them verbatim,
oldest-first — not newest-first by timestamp as the claim states for
every list operation. -/
theorem status_listing_not_newest_first :
    list_status_1000 statusDbExample = statusDbExample ∧
      ¬ List.Sorted newerEq (list_status_1000 statusDbExample) := by
  constructor
  · rfl
  · intro h
    have := (List.sorted_cons.mp h).1 ⟨(), 1⟩ (by simp [list_status_1000, statusDbExample])
    simp [newerEq] at this

/-- C4 (amended): the two planning history operations return their
records newest-first by timestamp, at most 50 of them (exactly 50 when 51
are stored, as `min 50 51 = 50`); the status-check operation returns at
most 1000 records in store order, without sorting. -/
theorem history_newest_first_limit
    {α : Type} (db : List (StoredRecord α)) :
    List.Sorted newerEq (list_recent_50 db) ∧
      (list_recent_50 db).length = min 50 db.length ∧
      list_status_1000 db = db.take 1000 ∧
      (db.length = 51 → (list_recent_50 db).length = 50) := by
  have hperm : (List.insertionSort newerEq db).length = db.length :=
    (List.perm_insertionSort newerEq db).length_eq
  refine ⟨?_, ?_, rfl, ?_⟩
  · exact (List.sorted_insertionSort newerEq db).sublist (List.take_sublist _ _)
  · rw [list_recent_50, List.length_take, hperm]
  · intro h51
    rw [list_recent_50, List.length_take, hperm, h51]
    norm_num

/-- Witness for `history_newest_first_limit` on a concrete store of 51
records. -/
theorem history_newest_first_limit_witness :
    evapDbExample.length = 51 ∧ (list_recent_50 evapDbExample).length = 50 :=
  ⟨by simp [evapDbExample], (history_newest_first_limit evapDbExample).2.2.2
    (by simp [evapDbExample])⟩

/-- Zero-padded `k`-digit decimal of `n` as ASCII codepoints, most
significant digit first. -/
def padDigits : ℕ → ℕ → List ℕ
  | 0, _ => []
  | k + 1, n => padDigits k (n / 10) ++ [48 + n % 10]

/-- Decimal value of a list of ASCII digit codepoints. -/
def readDigits (cs : List ℕ) : ℕ :=
  cs.foldl (fun a c => 10 * a + (c - 48)) 0

/-- Every codepoint in the list is a decimal digit. -/
def AllDigits (cs : List ℕ) : Prop := ∀ c ∈ cs, 48 ≤ c ∧ c ≤ 57

instance : DecidablePred AllDigits := fun cs => List.decidableBAll _ cs

lemma padDigits_length (k n : ℕ) : (padDigits k n).length = k := by
  induction k generalizing n with
  | zero => rfl
  | succ k ih => simp [padDigits, ih]

lemma allDigits_padDigits (k n : ℕ) : AllDigits (padDigits k n) := by
  induction k generalizing n with
  | zero => intro c hc; simp [padDigits] at hc
  | succ k ih =>
    intro c hc
    simp only [padDigits, List.mem_append, List.mem_singleton] at hc
    rcases hc with hc | hc
    · exact ih _ _ hc
    · subst hc
      have := Nat.mod_lt n (show 0 < 10 by norm_num)
      omega

lemma foldl_padDigits (k : ℕ) : ∀ n a : ℕ, n < 10 ^ k →
    (padDigits k n).foldl (fun a c => 10 * a + (c - 48)) a = a * 10 ^ k + n := by
  induction k with
  | zero =>
    intro n a h
    have hn : n = 0 := by simpa using Nat.lt_one_iff.mp (by simpa using h)
    simp [padDigits, hn]
  | succ k ih =>
    intro n a h
    have hdiv : n / 10 < 10 ^ k := by
      rw [Nat.div_lt_iff_lt_mul (by norm_num)]
      calc n < 10 ^ (k + 1) := h
        _ = 10 ^ k * 10 := by ring
    simp only [padDigits, List.foldl_append, List.foldl_cons, List.foldl_nil]
    rw [ih _ _ hdiv]
    have hsub : 48 + n % 10 - 48 = n % 10 := by omega
    rw [hsub, pow_succ]
    have hdm : 10 * (n / 10) + n % 10 = n := Nat.div_add_mod n 10
    calc 10 * (a * 10 ^ k + n / 10) + n % 10
        = a * (10 ^ k * 10) + (10 * (n / 10) + n % 10) := by ring
      _ = a * (10 ^ k * 10) + n := by rw [hdm]

lemma readDigits_padDigits (k n : ℕ) (h : n < 10 ^ k) :
    readDigits (padDigits k n) = n := by
  have := foldl_padDigits k n 0 h
  simpa [readDigits] using this

/-- Read exactly `k` digit codepoints off the front of the input,
returning their value and the remainder; `none` if fewer than `k`
characters remain or any of them is not a digit. -/
def parseFixed (k : ℕ) (cs : List ℕ) : Option (ℕ × List ℕ) :=
  if (cs.take k).length = k ∧ AllDigits (cs.take k) then
    some (readDigits (cs.take k), cs.drop k)
  else none

lemma take_append_eq_left {l1 l2 : List ℕ} {k : ℕ} (h : l1.length = k) :
    (l1 ++ l2).take k = l1 := by
  subst h
  exact List.take_left _ _

lemma drop_append_eq_right {l1 l2 : List ℕ} {k : ℕ} (h : l1.length = k) :
    (l1 ++ l2).drop k = l2 := by
  subst h
  exact List.drop_left _ _

lemma parseFixed_pad (k n : ℕ) (rest : List ℕ) (h : n < 10 ^ k) :
    parseFixed k (padDigits k n ++ rest) = some (n, rest) := by
  have hlen : (padDigits k n).length = k := padDigits_length k n
  rw [parseFixed, take_append_eq_left hlen, drop_append_eq_right hlen,
    if_pos ⟨hlen, allDigits_padDigits k n⟩, readDigits_padDigits k n h]

/-- Consume one expected codepoint. -/
def expectChar (c : ℕ) : List ℕ → Option (List ℕ)
  | [] => none
  | x :: xs => if x = c then some xs else none

lemma expectChar_cons_self (c : ℕ) (xs : List ℕ) :
    expectChar c (c :: xs) = some xs := by
  simp [expectChar]

/-- Consume exactly the UTC offset suffix `+00:00`. -/
def expectTz : List ℕ → Option Unit
  | [43, 48, 48, 58, 48, 48] => some ()
  | _ => none

/-- Parse the optional fractional-seconds part followed by the UTC
offset: either `.ffffff+00:00` (codepoint 46 is `.`) or just `+00:00`,
in which case the microsecond value is 0. -/
def parseTail : List ℕ → Option ℕ
  | c :: r =>
    if c = 46 then
      match parseFixed 6 r with
      | some (us, r2) =>
        match expectTz r2 with
        | some _ => some us
        | none => none
      | none => none
    else
      match expectTz (c :: r) with
      | some _ => some 0
      | none => none
  | [] => none

lemma parseTail_pad (us : ℕ) (h : us < 10 ^ 6) :
    parseTail (46 :: (padDigits 6 us ++ [43, 48, 48, 58, 48, 48])) = some us := by
  simp only [parseTail, if_pos rfl, parseFixed_pad 6 us _ h]
  rfl

/-- Modelled from the spec: a structured UTC timestamp (a Python
`datetime` in `timezone.utc`), at microsecond precision. -/
structure Timestamp where
  year : ℕ
  month : ℕ
  day : ℕ
  hour : ℕ
  minute : ℕ
  second : ℕ
  microsecond : ℕ

/-- Bounds under which every field fits its printed digit width (actual
Python datetimes satisfy strictly tighter bounds). -/
def Timestamp.Valid (t : Timestamp) : Prop :=
  t.year < 10 ^ 4 ∧ t.month < 10 ^ 2 ∧ t.day < 10 ^ 2 ∧ t.hour < 10 ^ 2 ∧
    t.minute < 10 ^ 2 ∧ t.second < 10 ^ 2 ∧ t.microsecond < 10 ^ 6

instance : DecidablePred Timestamp.Valid := fun t => by
  unfold Timestamp.Valid
  infer_instance

/-- Modelled from the spec: Python `datetime.isoformat()` for a UTC-aware
datetime — `YYYY-MM-DDTHH:MM:SS[.ffffff]+00:00`, the fractional part
omitted when the microsecond field is zero.  Codepoints: 45 `-`, 84 `T`,
58 `:`, 46 `.`, 43 `+`, 48 `0`. -/
def toIso (t : Timestamp) : List ℕ :=
  padDigits 4 t.year ++ [45] ++ padDigits 2 t.month ++ [45] ++ padDigits 2 t.day ++ [84] ++
    padDigits 2 t.hour ++ [58] ++ padDigits 2 t.minute ++ [58] ++ padDigits 2 t.second ++
    (if t.microsecond = 0 then [] else 46 :: padDigits 6 t.microsecond) ++
    [43, 48, 48, 58, 48, 48]

/-- Modelled from the spec: Python `datetime.fromisoformat` on the
strings `toIso` produces. -/
def fromIso (cs : List ℕ) : Option Timestamp := do
  let (y, r) ← parseFixed 4 cs
  let r ← expectChar 45 r
  let (mo, r) ← parseFixed 2 r
  let r ← expectChar 45 r
  let (d, r) ← parseFixed 2 r
  let r ← expectChar 84 r
  let (hh, r) ← parseFixed 2 r
  let r ← expectChar 58 r
  let (mi, r) ← parseFixed 2 r
  let r ← expectChar 58 r
  let (s, r) ← parseFixed 2 r
  let us ← parseTail r
  pure ⟨y, mo, d, hh, mi, s, us⟩

/-- Serialize-then-parse is the identity on valid timestamps. -/
lemma fromIso_toIso (t : Timestamp) (h : t.Valid) : fromIso (toIso t) = some t := by
  obtain ⟨hy, hmo, hd, hh, hmi, hs, hus⟩ := h
  rw [toIso]
  by_cases h0 : t.microsecond = 0
  · rw [if_pos h0]
    simp only [List.append_assoc, List.cons_append, List.nil_append]
    simp only [fromIso, parseFixed_pad _ _ _ hy, parseFixed_pad _ _ _ hmo,
      parseFixed_pad _ _ _ hd, parseFixed_pad _ _ _ hh, parseFixed_pad _ _ _ hmi,
      parseFixed_pad _ _ _ hs, expectChar_cons_self, Option.bind_eq_bind,
      Option.some_bind]
    rw [show parseTail [43, 48, 48, 58, 48, 48] = some 0 from rfl]
    rw [← h0]
    rfl
  · rw [if_neg h0]
    simp only [List.append_assoc, List.cons_append, List.nil_append]
    simp only [fromIso, parseFixed_pad _ _ _ hy, parseFixed_pad _ _ _ hmo,
      parseFixed_pad _ _ _ hd, parseFixed_pad _ _ _ hh, parseFixed_pad _ _ _ hmi,
      parseFixed_pad _ _ _ hs, expectChar_cons_self, Option.bind_eq_bind,
      Option.some_bind, parseTail_pad _ hus]
    rfl

/-- The fields of an `EvaporationResult` (`server.py` lines 39-44):
identifier, rate, embedded weather input, components, timestamp.  The
weather input is `(temperature, humidity, wind_speed, solar_radiation,
location)`. -/
structure EvaporationResultModel where
  id : String
  evaporation_rate : ℝ
  weather_input : ℝ × ℝ × ℝ × ℝ × String
  penman_components : PenmanComponents
  timestamp : Timestamp

/-- The persisted shape of an `EvaporationResult`: the timestamp is
replaced by its ISO-8601 serialization, all other fields stored
verbatim (`server.py` lines 203-205). -/
structure StoredEvaporationResult where
  id : String
  evaporation_rate : ℝ
  weather_input : ℝ × ℝ × ℝ × ℝ × String
  penman_components : PenmanComponents
  timestamp_str : List ℕ

/-- `server.py` lines 203-205: `result_dict['timestamp'] =
result_dict['timestamp'].isoformat()` before insertion. -/
noncomputable def persistEvaporationResult
    (r : EvaporationResultModel) : StoredEvaporationResult :=
  { id := r.id
    evaporation_rate := r.evaporation_rate
    weather_input := r.weather_input
    penman_components := r.penman_components
    timestamp_str := toIso r.timestamp }

/-- `server.py` lines 252-256: parse the stored ISO string back to a
structured timestamp on read, all other fields verbatim. -/
noncomputable def readEvaporationResult
    (d : StoredEvaporationResult) : Option EvaporationResultModel :=
  match fromIso d.timestamp_str with
  | some ts =>
    some { id := d.id
           evaporation_rate := d.evaporation_rate
           weather_input := d.weather_input
           penman_components := d.penman_components
           timestamp := ts }
  | none => none

/-- C5: persisting an `EvaporationResult` (serializing its timestamp to
an ISO-8601 string) and immediately reading it back (parsing the string)
yields a record with every field equal to the original — the timestamp
round trip is the identity. -/
theorem persist_read_round_trip (r : EvaporationResultModel) (h : r.timestamp.Valid) :
    readEvaporationResult (persistEvaporationResult r) = some r := by
  rw [readEvaporationResult, persistEvaporationResult]
  simp only [fromIso_toIso _ h]

/-- A concrete result record for the round-trip witness. -/
noncomputable def exampleResult : EvaporationResultModel :=
  { id := "7f6b1c2e"
    evaporation_rate := 7.134
    weather_input := (25, 60, 2, 20, "Unknown Location")
    penman_components :=
      { radiation_component := 1.805
        aerodynamic_component := 5.329
        saturation_vapor_pressure := 3.168
        actual_vapor_pressure := 1.901
        vapor_pressure_deficit := 1.267
        slope_vapor_pressure := 0.189
        wind_function := 5.408
        net_radiation_equivalent := 8.163 }
    timestamp := ⟨2026, 10, 12, 3, 4, 5, 123456⟩ }

/-- Witness for `persist_read_round_trip` on `exampleResult`. -/
theorem persist_read_round_trip_witness :
    exampleResult.timestamp.Valid ∧
      readEvaporationResult (persistEvaporationResult exampleResult) = some exampleResult :=
  ⟨by decide, persist_read_round_trip exampleResult (by decide)⟩

end PenmanPlanner
